import Mathlib

/-!
Verification development for the Sodré Santoro monitor
(src/scraper/sodre_monitor.py).

The Python source is shallowly embedded: each function fragment the claims
refer to becomes a Lean definition that follows the source line by line.
Python floats are idealized as rationals (no claim here depends on IEEE-754
rounding); Python strings are modelled as Lean strings, with character-list
primitives standing in for the Python string methods actually used
(strip, replace, containment).  Raw JSON field values that the source reads
with dict.get are modelled as Option-typed values, with none standing for a
missing key or a null value.
-/

namespace SodreMonitor

/-! ### Field normalizer -/

/-- Models Python str.strip: drop leading and trailing whitespace
(source line 526). -/
def pyStrip (s : String) : String :=
  String.mk (((s.data.dropWhile Char.isWhitespace).reverse.dropWhile Char.isWhitespace).reverse)

/-- Models _safe_str (source lines 522-529) restricted to string-or-null
input: null maps to none, a string is stripped, and an empty result is
returned as none (Python falsy empty string). -/
def safe_str (v : Option String) : Option String :=
  match v with
  | none => none
  | some s => if (pyStrip s).data = [] then none else some (pyStrip s)

/-- Character-list membership, models the Python `in` test on strings. -/
def containsChar (a : Char) : List Char → Bool
  | [] => false
  | c :: cs => if c = a then true else containsChar a cs

/-- Models value.replace of the single character Z by +00:00
(source line 536): every occurrence is replaced. -/
def replaceZ : List Char → List Char
  | [] => []
  | c :: cs =>
    if c = 'Z' then '+' :: '0' :: '0' :: ':' :: '0' :: '0' :: replaceZ cs
    else c :: replaceZ cs

/-- Year, month, day, hour, minute, second of a parsed datetime. -/
structure DateParts where
  y : Nat
  mo : Nat
  d : Nat
  h : Nat
  mi : Nat
  s : Nat
deriving DecidableEq, Repr

/-- Numeric value of a digit character. -/
def digitVal (c : Char) : Nat := c.toNat - 48

/-- Digit character of a value below ten. -/
def digitChar (n : Nat) : Char := Char.ofNat (48 + n)

/-- Two-digit zero-padded rendering (strftime %m, %d, %H, %M, %S). -/
def pad2 (n : Nat) : List Char := [digitChar (n / 10 % 10), digitChar (n % 10)]

/-- Four-digit zero-padded rendering (strftime %Y for in-range years). -/
def pad4 (n : Nat) : List Char := pad2 (n / 100) ++ pad2 (n % 100)

/-- Reads exactly four digit characters, the strptime %Y pattern. -/
def take4digits : List Char → Option (Nat × List Char)
  | a :: b :: c :: d :: rest =>
    if a.isDigit ∧ b.isDigit ∧ c.isDigit ∧ d.isDigit then
      some (1000 * digitVal a + 100 * digitVal b + 10 * digitVal c + digitVal d, rest)
    else none
  | _ => none

/-- Reads one or two digit characters, preferring two; this is how the
strptime patterns for %m, %d, %H, %M, %S behave in this format, because
every numeric field is followed by a non-digit. -/
def take2or1 : List Char → Option (Nat × List Char)
  | [] => none
  | c1 :: rest =>
    if c1.isDigit then
      match rest with
      | c2 :: rest2 =>
        if c2.isDigit then some (10 * digitVal c1 + digitVal c2, rest2)
        else some (digitVal c1, rest)
      | [] => some (digitVal c1, [])
    else none

/-- Reads one expected literal character. -/
def expectChar (a : Char) : List Char → Option (List Char)
  | [] => none
  | c :: cs => if c = a then some cs else none

/-- Reads one or more whitespace characters (the strptime translation of a
whitespace run in the format string). -/
def takeWs1 : List Char → Option (List Char)
  | [] => none
  | c :: cs => if c.isWhitespace then some (cs.dropWhile Char.isWhitespace) else none

/-- Gregorian leap year test, as datetime uses. -/
def isLeap (y : Nat) : Bool := (y % 4 == 0 && y % 100 != 0) || y % 400 == 0

/-- Days in a month, as the datetime constructor validates. -/
def daysInMonth (y mo : Nat) : Nat :=
  if mo = 2 then (if isLeap y then 29 else 28)
  else if mo = 4 ∨ mo = 6 ∨ mo = 9 ∨ mo = 11 then 30 else 31

/-- Models datetime.strptime(value, the year-month-day space
hour:minute:second format) from source line 540: the whole string must be
consumed, the regex-level digit shapes are read by take4digits and take2or1,
and the range conditions combine the strptime regex ranges with the
datetime-constructor validation (month 1-12, day within the month, hour
below 24, minute and second below 60, year at least 1). -/
def strptimeYmdHMS (l : List Char) : Option DateParts :=
  match take4digits l with
  | none => none
  | some (y, r1) =>
  match expectChar '-' r1 with
  | none => none
  | some r2 =>
  match take2or1 r2 with
  | none => none
  | some (mo, r3) =>
  match expectChar '-' r3 with
  | none => none
  | some r4 =>
  match take2or1 r4 with
  | none => none
  | some (d, r5) =>
  match takeWs1 r5 with
  | none => none
  | some r6 =>
  match take2or1 r6 with
  | none => none
  | some (h, r7) =>
  match expectChar ':' r7 with
  | none => none
  | some r8 =>
  match take2or1 r8 with
  | none => none
  | some (mi, r9) =>
  match expectChar ':' r9 with
  | none => none
  | some r10 =>
  match take2or1 r10 with
  | none => none
  | some (s, r11) =>
    if r11 = [] ∧ 1 ≤ mo ∧ mo ≤ 12 ∧ 1 ≤ d ∧ d ≤ daysInMonth y mo ∧
       h ≤ 23 ∧ mi ≤ 59 ∧ s ≤ 59 ∧ 1 ≤ y then
      some ⟨y, mo, d, h, mi, s⟩
    else none

/-- Output rendering of source line 541: strftime with a literal T and a
+00:00 suffix. -/
def fmtOut (c : DateParts) : List Char :=
  pad4 c.y ++ '-' :: pad2 c.mo ++ '-' :: pad2 c.d ++ 'T' :: pad2 c.h ++
    ':' :: pad2 c.mi ++ ':' :: pad2 c.s ++ ('+' :: '0' :: '0' :: ':' :: '0' :: '0' :: [])

/-- Canonical rendering of the space-separated input format accepted by
strptimeYmdHMS. -/
def renderSpace (c : DateParts) : List Char :=
  pad4 c.y ++ '-' :: pad2 c.mo ++ '-' :: pad2 c.d ++ ' ' :: pad2 c.h ++
    ':' :: pad2 c.mi ++ ':' :: pad2 c.s

/-- Models _parse_datetime (source lines 531-544) restricted to
string-or-absent input: absent, falsy (empty) and non-string inputs map to
none; otherwise Z is replaced by +00:00, a string containing T is returned
as-is, and any other string goes through the space-separated format. -/
def parse_datetime (v : Option String) : Option String :=
  match v with
  | none => none
  | some s =>
    if s.data = [] then none
    else
      let l := replaceZ s.data
      if containsChar 'T' l then some (String.mk l)
      else
        match strptimeYmdHMS l with
        | some c => some (String.mk (fmtOut c))
        | none => none

/-- Calendar-valid date parts: exactly the inputs on which the
strptime-then-strftime pipeline of _parse_datetime succeeds. -/
def ValidParts (c : DateParts) : Prop :=
  1 ≤ c.y ∧ c.y ≤ 9999 ∧ 1 ≤ c.mo ∧ c.mo ≤ 12 ∧ 1 ≤ c.d ∧
    c.d ≤ daysInMonth c.y c.mo ∧ c.h ≤ 23 ∧ c.mi ≤ 59 ∧ c.s ≤ 59

instance (c : DateParts) : Decidable (ValidParts c) := by
  unfold ValidParts; infer_instance

/-! ### Metric deriver (fragments of _create_snapshot) -/

/-- The four bid delta fields computed by _create_snapshot. -/
structure BidMetrics where
  bid_increment : Option ℚ
  bid_increment_percentage : Option ℚ
  bid_total_increment : Option ℚ
  bid_total_increment_percentage : Option ℚ
deriving DecidableEq, Repr

/-- Models source lines 325-338: the nested truthiness tests if bid_actual,
if old_bid_actual, if bid_initial and bid_initial greater than zero.  A
Python float is falsy exactly when it is zero, so the truthiness test on an
optional rational is: present and nonzero. -/
def bidMetrics (bid_actual old_bid_actual bid_initial : Option ℚ) : BidMetrics :=
  match bid_actual with
  | none => ⟨none, none, none, none⟩
  | some ba =>
    if ba = 0 then ⟨none, none, none, none⟩
    else
      let incPair : Option ℚ × Option ℚ :=
        match old_bid_actual with
        | none => (none, none)
        | some ob =>
          if ob = 0 then (none, none)
          else (some (ba - ob), if 0 < ob then some ((ba - ob) / ob * 100) else none)
      let totPair : Option ℚ × Option ℚ :=
        match bid_initial with
        | none => (none, none)
        | some bi =>
          if 0 < bi then (some (ba - bi), some ((ba - bi) / bi * 100))
          else (none, none)
      ⟨incPair.1, incPair.2, totPair.1, totPair.2⟩

/-- The three time-to-auction fields computed by _create_snapshot. -/
structure TimeMetrics where
  hours_until_auction_start : Option ℚ
  hours_since_auction_start : Option ℚ
  days_in_auction : Option Int
deriving DecidableEq, Repr

/-- Models source lines 302-317.  The argument is the signed difference, in
seconds, between the parsed auction start instant and the capture instant
now; none models an absent auction_date_init or a
fromisoformat-or-subtraction failure, which the bare except swallows.
delta.days of a Python timedelta is the floor of its total seconds divided
by 86400, and delta.total_seconds() over 3600 is the exact hour count under
the rational idealization. -/
def timeMetrics (deltaSecs : Option ℚ) : TimeMetrics :=
  match deltaSecs with
  | none => ⟨none, none, none⟩
  | some d =>
    if 0 < d then ⟨some (d / 3600), none, none⟩
    else ⟨none, some (|d| / 3600), some |Int.floor (d / 86400)|⟩

/-- Models source line 295: lot_visits is the parsed integer with Python
`or 0`, so an absent parse result and a parsed zero both become zero. -/
def visits_with_default (v : Option Int) : Int :=
  match v with
  | none => 0
  | some n => if n = 0 then 0 else n

/-- Models source lines 340-342: visit_increment is set only when the new
lot_visits is truthy (nonzero) and the old value is not None. -/
def visit_increment (lot_visits : Int) (old_lot_visits : Option Int) : Option Int :=
  if lot_visits = 0 then none
  else
    match old_lot_visits with
    | none => none
    | some o => some (lot_visits - o)

/-- Models source lines 351-353: the running snapshot count.  The outer
option is the presence of a previous snapshot, the inner option is the
presence of its total_snapshots_count key (dict.get with default 0). -/
def total_snapshots_count (last_snap : Option (Option Int)) : Int :=
  match last_snap with
  | none => 1
  | some cnt => cnt.getD 0 + 1

/-- Models source line 349: the snapshot is_active flag is computed from the
_safe_str-normalized auction_status, with a true default when that is
falsy (absent). -/
def snapshot_is_active (auction_status_raw : Option String) : Bool :=
  match safe_str auction_status_raw with
  | none => true
  | some s => s == ("aberto")

/-- Models source line 434: the full-update is_active flag compares the raw
(unnormalized) auction_status against the open marker; a null compares
unequal. -/
def update_is_active (auction_status_raw : Option String) : Bool :=
  match auction_status_raw with
  | none => false
  | some s => s == ("aberto")

/-! ### Reconciliation driver (_process_matches_and_snapshots, per item) -/

/-- The run statistics dictionary of the monitor (source lines 42-53). -/
structure Stats where
  items_scraped : Nat
  items_matched : Nat
  items_new : Nat
  snapshots_created : Nat
  items_updated : Nat
  bid_changes : Nat
  visit_changes : Nat
  status_changes : Nat
  pages_scraped : Nat
  errors : Nat
deriving DecidableEq, Repr

/-- A raw identifier field as read from the scraped dictionary: absent or
null, a string, or an integer.  Python truthiness distinguishes exactly
null, the empty string and zero as falsy. -/
inductive RawId where
  | none
  | str (s : String)
  | int (n : Int)
deriving DecidableEq, Repr

/-- Python truthiness of a raw identifier. -/
def RawId.truthy : RawId → Bool
  | .none => false
  | .str s => !(s.data = [])
  | .int n => !(n = 0)

/-- Python str rendering of a raw identifier, as f-string interpolation
applies it (source line 249). -/
def RawId.toStr : RawId → String
  | .none => ("None")
  | .str s => s
  | .int n => toString n

/-- A scraped lot record for the driver: the two identifier fields plus an
opaque payload consumed only by the snapshot and update builders. -/
structure RawLot (ρ : Type) where
  auction_id : RawId
  lot_id : RawId
  payload : ρ
deriving DecidableEq, Repr

/-- Models str.rstrip applied with the slash character (source line 250):
drop every trailing slash. -/
def rstripSlash (s : String) : String :=
  String.mk ((s.data.reverse.dropWhile (fun c => c = '/')).reverse)

/-- The lot detail base URL (source line 33). -/
def leilao_base_url : String := "https://leilao.sodresantoro.com.br"

/-- The link derived from the two identifiers (source line 249). -/
def linkFor (a l : RawId) : String :=
  leilao_base_url ++ ("/leilao/") ++ a.toStr ++ ("/lote/") ++ l.toStr ++ ("/")

/-- The mutable state the per-observation loop body touches: the statistics
and the two accumulating batches (source lines 239-277). -/
structure ProcState (σ υ : Type) where
  stats : Stats
  snapshots_batch : List σ
  updates_batch : List υ
deriving DecidableEq, Repr

/-- Models one iteration of the loop in _process_matches_and_snapshots
(source lines 242-277).  The collaborators are passed as functions: the
by-link index of base records, the item id projection, the last-snapshot
map, the snapshot and full-update builders (returning none on their caught
construction failures), and the three flag projections of a built snapshot
that feed the change counters.  The visit counter condition mirrors line
270: the visit_increment value must be truthy and positive. -/
def processOne {ρ β τ σ υ : Type}
    (db_items_by_link : String → Option β)
    (item_id : β → Nat)
    (last_snapshots : Nat → Option τ)
    (create_snapshot : β → RawLot ρ → Option τ → Option σ)
    (bidChangedFlag : σ → Bool)
    (visitIncField : σ → Option Int)
    (statusChangedFlag : σ → Bool)
    (create_full_update : β → RawLot ρ → Option υ)
    (st : ProcState σ υ) (lot : RawLot ρ) : ProcState σ υ :=
  if lot.auction_id.truthy = false ∨ lot.lot_id.truthy = false then st
  else
    let link_clean := rstripSlash (linkFor lot.auction_id lot.lot_id)
    match db_items_by_link link_clean with
    | none =>
      { st with stats := { st.stats with items_new := st.stats.items_new + 1 } }
    | some db_item =>
      let st1 : ProcState σ υ :=
        { st with stats := { st.stats with items_matched := st.stats.items_matched + 1 } }
      let last_snap := last_snapshots (item_id db_item)
      let st2 : ProcState σ υ :=
        match create_snapshot db_item lot last_snap with
        | some snap =>
          let sA : ProcState σ υ :=
            { st1 with
              snapshots_batch := st1.snapshots_batch ++ [snap],
              stats := { st1.stats with
                snapshots_created := st1.stats.snapshots_created + 1 } }
          let sB : ProcState σ υ :=
            if bidChangedFlag snap then
              { sA with stats := { sA.stats with bid_changes := sA.stats.bid_changes + 1 } }
            else sA
          let sC : ProcState σ υ :=
            match visitIncField snap with
            | some v =>
              if 0 < v then
                { sB with stats := { sB.stats with visit_changes := sB.stats.visit_changes + 1 } }
              else sB
            | none => sB
          if statusChangedFlag snap then
            { sC with stats := { sC.stats with status_changes := sC.stats.status_changes + 1 } }
          else sC
        | none => st1
      match create_full_update db_item lot with
      | some u => { st2 with updates_batch := st2.updates_batch ++ [u] }
      | none => st2

/-! ### Persistence (_insert_snapshots_batch and _update_base_items_batch) -/

/-- Models the chunking loop header of source line 493: the slice from each
index of range(0, length, n), each slice taking at most n elements. -/
def chunksOf (n : Nat) (l : List α) : List (List α) :=
  (List.range' 0 ((l.length + n - 1) / n) n).map (fun i => (l.drop i).take n)

/-- Result of _insert_snapshots_batch: the chunks whose insert call
succeeded, and the amount added to the errors statistic. -/
structure InsertResult (σ : Type) where
  inserted : List (List σ)
  errors : Nat
deriving DecidableEq, Repr

/-- The chunk loop body of source lines 493-496 under a single enclosing
try: insertion proceeds chunk by chunk until the first failing insert call,
whose exception escapes the loop. -/
def runInsertLoop (insertOk : List σ → Bool) : List (List σ) → List (List σ) × Bool
  | [] => ([], true)
  | c :: cs =>
    if insertOk c then
      let r := runInsertLoop insertOk cs
      (c :: r.1, r.2)
    else ([], false)

/-- Models _insert_snapshots_batch (source lines 489-500): the whole chunk
loop sits inside one try, so the first failing chunk aborts the remaining
chunks and the except clause adds the length of the ENTIRE snapshot list to
the errors statistic. -/
def insert_snapshots_batch (insertOk : List σ → Bool) (snapshots : List σ) : InsertResult σ :=
  let r := runInsertLoop insertOk (chunksOf 500 snapshots)
  { inserted := r.1, errors := if r.2 then 0 else snapshots.length }

/-- Result of _update_base_items_batch: the increments to the items_updated
and errors statistics. -/
structure UpdateResult where
  items_updated : Nat
  errors : Nat
deriving DecidableEq, Repr

/-- Models _update_base_items_batch (source lines 502-520): each update has
its own try, a failure is counted and the loop continues with the next
item. -/
def update_base_items_batch (updateOk : υ → Bool) : List υ → UpdateResult
  | [] => ⟨0, 0⟩
  | u :: us =>
    let r := update_base_items_batch updateOk us
    if updateOk u then ⟨r.items_updated + 1, r.errors⟩
    else ⟨r.items_updated, r.errors + 1⟩

/-! ### Claim C1: definedness of bid_increment -/

/-- C1, amended: bid_increment is defined iff the new bid_actual AND the
prior bid_actual are both present and nonzero (Python truthiness on the
floats at source lines 330-331), not merely present; when defined it equals
new minus previous. -/
theorem bid_increment_definedness (ba ob bi : Option ℚ) :
    ((bidMetrics ba ob bi).bid_increment ≠ none ↔
      (∃ a, ba = some a ∧ a ≠ 0) ∧ (∃ o, ob = some o ∧ o ≠ 0)) ∧
    (∀ a o : ℚ, ba = some a → ob = some o → a ≠ 0 → o ≠ 0 →
      (bidMetrics ba ob bi).bid_increment = some (a - o)) := by
  constructor
  · rcases ba with _ | a
    · simp [bidMetrics]
    · rcases ob with _ | o
      · by_cases ha : a = 0 <;> simp [bidMetrics, ha]
      · by_cases ha : a = 0 <;> by_cases ho : o = 0 <;>
          simp [bidMetrics, ha, ho]
  · intro a o hba hob ha ho
    subst hba; subst hob
    simp [bidMetrics, ha, ho]

/-- C1, counterexample to the claim as stated: a bid_actual that is present
and equal to 0 (first conjunct), or a prior bid_actual that is present and
equal to 0 (second conjunct), yields a null bid_increment even though both
values are present, because source lines 330-331 test Python truthiness and
0.0 is falsy. -/
theorem bid_increment_zero_counterexample :
    (bidMetrics (some 0) (some 100) none).bid_increment = none ∧
    (bidMetrics (some 50) (some 0) none).bid_increment = none := by
  constructor <;> norm_num [bidMetrics]

/-- C1, witness: the amended theorem applied at new 5 and previous 2. -/
theorem bid_increment_definedness_witness :
    (bidMetrics (some 5) (some 2) none).bid_increment = some (5 - 2) :=
  (bid_increment_definedness (some 5) (some 2) none).2 5 2 rfl rfl
    (by norm_num) (by norm_num)

/-! ### Claim C4: definedness of visit_increment -/

/-- C4, amended: with the new lot_visits always an integer after the
or-zero default of source line 295, visit_increment is defined iff the new
value is nonzero (Python truthiness at source line 341) and the previous
value is not null; when defined it equals new minus previous, so its sign
is the sign of that difference. -/
theorem visit_increment_definedness (lv : Int) (old : Option Int) :
    ((visit_increment lv old).isSome ↔ lv ≠ 0 ∧ old.isSome) ∧
    (∀ o : Int, old = some o → lv ≠ 0 →
      visit_increment lv old = some (lv - o)) := by
  constructor
  · by_cases h : lv = 0 <;> rcases old with _ | o <;> simp [visit_increment, h]
  · intro o ho h
    subst ho
    simp [visit_increment, h]

/-- C4, counterexample to the claim as stated: a new lot_visits of 0 (here
a parsed 0, which the or-zero default of line 295 keeps as 0) with a known
previous value 5 yields a null visit_increment, not the defined value -5. -/
theorem visit_increment_zero_counterexample :
    visit_increment (visits_with_default (some 0)) (some 5) = none ∧
    visits_with_default (some 0) = 0 := by decide

/-- C4, witness: the amended theorem applied at new 42 and previous 30. -/
theorem visit_increment_definedness_witness :
    visit_increment 42 (some 30) = some (42 - 30) :=
  (visit_increment_definedness 42 (some 30)).2 30 rfl (by decide)

/-! ### Claim C6: the running snapshot count -/

/-- C6, confirmed: with no prior snapshot the count is 1; with a prior
snapshot carrying count N it is N plus 1; with a prior snapshot whose count
key is absent the dict.get default 0 yields 1 (source lines 351-353). -/
theorem total_snapshots_count_characterization :
    total_snapshots_count none = 1 ∧
    (∀ N : Int, total_snapshots_count (some (some N)) = N + 1) ∧
    total_snapshots_count (some none) = 1 :=
  ⟨rfl, fun _ => rfl, rfl⟩

/-! ### Claim C2: time-to-auction metrics -/

/-- C2, amended: a future auction start (positive delta) yields a positive
hours_until_auction_start and null since/days fields; otherwise
hours_since_auction_start is the absolute number of elapsed hours and
days_in_auction is the CEILING (not the floor) of the elapsed whole days,
because abs(delta.days) of a negative Python timedelta rounds away from
zero; an absent or unparseable auction_date_init (the none argument) yields
all three null. -/
theorem time_metrics_characterization (o : Option ℚ) :
    (o = none → timeMetrics o = ⟨none, none, none⟩) ∧
    (∀ d : ℚ, o = some d → 0 < d →
      timeMetrics o = ⟨some (d / 3600), none, none⟩ ∧ 0 < d / 3600) ∧
    (∀ d : ℚ, o = some d → d ≤ 0 →
      timeMetrics o = ⟨none, some (|d| / 3600), some ⌈|d| / 86400⌉⟩) := by
  refine ⟨fun h => by subst h; rfl, ?_, ?_⟩
  · intro d hd hpos
    subst hd
    refine ⟨by simp [timeMetrics, hpos], by positivity⟩
  · intro d hd hle
    subst hd
    have hnot : ¬ 0 < d := not_lt.mpr hle
    have key : |Int.floor (d / 86400)| = ⌈|d| / 86400⌉ := by
      have habs : |d| = -d := abs_of_nonpos hle
      have h1 : d / 86400 = -(-d / 86400) := by ring
      rw [habs, h1, Int.floor_neg, abs_neg]
      exact abs_of_nonneg (Int.ceil_nonneg (div_nonneg (neg_nonneg.mpr hle) (by norm_num)))
    simp [timeMetrics, hnot, key]

/-- C2, counterexample to the claim as stated: 36 hours after the auction
start (delta of -129600 seconds) the code reports days_in_auction 2, the
ceiling of 1.5 days, while the claim's floor of elapsed-hours over 24 is
1. -/
theorem days_in_auction_floor_counterexample :
    (timeMetrics (some (-129600))).hours_since_auction_start = some 36 ∧
    (timeMetrics (some (-129600))).days_in_auction = some 2 ∧
    ⌊(36 : ℚ) / 24⌋ = 1 := by
  have hfloor : ⌊(-129600 : ℚ) / 86400⌋ = -2 := by
    rw [Int.floor_eq_iff]; norm_num
  refine ⟨?_, ?_, ?_⟩
  · norm_num [timeMetrics]
  · norm_num [timeMetrics, hfloor]
  · rw [Int.floor_eq_iff]; norm_num

/-- C2, witness: the amended theorem applied at a future start two hours
away and at a past start two hours gone. -/
theorem time_metrics_characterization_witness :
    (timeMetrics (some 7200) = ⟨some (7200 / 3600), none, none⟩ ∧
      (0 : ℚ) < 7200 / 3600) ∧
    timeMetrics (some (-7200)) =
      ⟨none, some (|(-7200 : ℚ)| / 3600), some ⌈|(-7200 : ℚ)| / 86400⌉⟩ :=
  ⟨(time_metrics_characterization (some 7200)).2.1 7200 rfl (by norm_num),
   (time_metrics_characterization (some (-7200))).2.2 (-7200) rfl (by norm_num)⟩

/-! ### Claim C9: the two is_active derivations -/

/-- C9, amended: when auction_status is absent (null, or blank after
normalization) the snapshot flag is true while the full-update flag is
false; but the two derivations disagree not ONLY there: they also disagree
on any status string that strips to the open marker without being exactly
it (the snapshot compares the _safe_str-normalized value at line 349, the
full update compares the raw value at line 434). -/
theorem is_active_divergence (raw : Option String) :
    (safe_str raw = none →
      snapshot_is_active raw = true ∧ update_is_active raw = false) ∧
    (¬ (snapshot_is_active raw = update_is_active raw) ↔
      safe_str raw = none ∨
        (safe_str raw = some ("aberto") ∧ ¬ raw = some ("aberto"))) := by
  rcases raw with _ | s
  · simp [safe_str, snapshot_is_active, update_is_active]
  · by_cases h1 : (pyStrip s).data = []
    · have hs : s ≠ ("aberto") := by
        rintro rfl
        exact absurd h1 (by decide)
      simp [safe_str, snapshot_is_active, update_is_active, h1, hs]
    · by_cases h2 : pyStrip s = ("aberto")
      · by_cases h3 : s = ("aberto")
        · subst h3; decide
        · simp [safe_str, snapshot_is_active, update_is_active, h1, h2, h3]
      · have h3 : s ≠ ("aberto") := by
          rintro rfl
          exact h2 (by decide)
        simp [safe_str, snapshot_is_active, update_is_active, h1, h2, h3]

/-- C9, counterexample to the claim as stated: the status string made of a
space followed by the open marker is not absent (it normalizes to the open
marker), yet the snapshot flag is true and the full-update flag is false —
a disagreement outside the absent-status case. -/
theorem is_active_whitespace_counterexample :
    snapshot_is_active (some (" aberto")) = true ∧
    update_is_active (some (" aberto")) = false ∧
    ¬ safe_str (some (" aberto")) = none := by decide

/-- C9, witness: the amended theorem applied at an absent status. -/
theorem is_active_divergence_witness :
    snapshot_is_active none = true ∧ update_is_active none = false :=
  (is_active_divergence none).1 rfl

/-! ### Claim C5: persistence error accounting -/

/-- C5, amended: a per-item base-record update failure is counted and the
remaining updates continue (the filter characterization: every item is
attempted); but a snapshot insert-batch failure aborts the remaining
500-row chunks (the inserted chunks are exactly the longest successful
prefix) and the except clause counts the ENTIRE accumulated snapshot list,
not just the attempted batch, as errored. -/
theorem persistence_error_accounting {σ υ : Type} (f : List σ → Bool) (g : υ → Bool)
    (snaps : List σ) (upds : List υ) :
    (insert_snapshots_batch f snaps).inserted = (chunksOf 500 snaps).takeWhile f ∧
    (insert_snapshots_batch f snaps).errors =
      (if (chunksOf 500 snaps).all f then 0 else snaps.length) ∧
    (update_base_items_batch g upds).items_updated = (upds.filter g).length ∧
    (update_base_items_batch g upds).errors =
      (upds.filter (fun u => !(g u))).length := by
  have hrun : ∀ cs : List (List σ), runInsertLoop f cs = (cs.takeWhile f, cs.all f) := by
    intro cs
    induction cs with
    | nil => rfl
    | cons c cs ih =>
      by_cases hc : f c <;>
        simp [runInsertLoop, hc, ih, List.takeWhile_cons, List.all_cons]
  have hupd : ∀ us : List υ, update_base_items_batch g us =
      ⟨(us.filter g).length, (us.filter (fun u => !(g u))).length⟩ := by
    intro us
    induction us with
    | nil => rfl
    | cons u us ih =>
      by_cases hu : g u <;> simp [update_base_items_batch, hu, ih, List.filter_cons]
  refine ⟨?_, ?_, ?_, ?_⟩ <;> simp [insert_snapshots_batch, hrun, hupd]

set_option maxRecDepth 20000 in
/-- C5, counterexample to the claim as stated: 501 snapshots split into a
500-row chunk and a 1-row chunk; the insert call fails on the 500-row chunk
(the predicate accepts only chunks of length at most 1).  The code counts
all 501 rows as errored, not the attempted batch of 500, and the second
chunk, whose insert would succeed (last conjunct), is never inserted. -/
theorem insert_batch_error_counterexample :
    (insert_snapshots_batch (fun c => Nat.ble c.length 1) (List.range 501)).errors = 501 ∧
    (insert_snapshots_batch (fun c => Nat.ble c.length 1) (List.range 501)).inserted = [] ∧
    (chunksOf 500 (List.range 501)).length = 2 ∧
    Nat.ble ((chunksOf 500 (List.range 501)).getD 1 []).length 1 = true := by decide

/-! ### Claim C7: unmatched observations -/

/-- C7, confirmed: an observation with truthy identifiers whose derived
link matches no loaded base record produces no snapshot and no update,
increments items_new by exactly one, and leaves every other counter and
both batches unchanged (source lines 249-256). -/
theorem unmatched_observation_frame {ρ β τ σ υ : Type}
    (db_items_by_link : String → Option β) (item_id : β → Nat)
    (last_snapshots : Nat → Option τ)
    (create_snapshot : β → RawLot ρ → Option τ → Option σ)
    (bidChangedFlag : σ → Bool) (visitIncField : σ → Option Int)
    (statusChangedFlag : σ → Bool)
    (create_full_update : β → RawLot ρ → Option υ)
    (st : ProcState σ υ) (lot : RawLot ρ)
    (h1 : lot.auction_id.truthy = true) (h2 : lot.lot_id.truthy = true)
    (h3 : db_items_by_link (rstripSlash (linkFor lot.auction_id lot.lot_id)) = none) :
    processOne db_items_by_link item_id last_snapshots create_snapshot
      bidChangedFlag visitIncField statusChangedFlag create_full_update st lot =
    { st with stats := { st.stats with items_new := st.stats.items_new + 1 } } := by
  simp [processOne, h1, h2, h3]

/-- C7, witness: the frame theorem applied to a concrete observation with
identifiers 100 and 5 against an empty base-record index. -/
theorem unmatched_observation_frame_witness :
    processOne (fun _ => (none : Option Unit)) (fun _ => 0)
      (fun _ => (none : Option Unit)) (fun _ _ _ => (none : Option Unit))
      (fun _ => false) (fun _ => none) (fun _ => false)
      (fun _ _ => (none : Option Unit))
      ⟨⟨0, 0, 0, 0, 0, 0, 0, 0, 0, 0⟩, [], []⟩
      ⟨RawId.str ("100"), RawId.str ("5"), ()⟩ =
    ⟨⟨0, 0, 1, 0, 0, 0, 0, 0, 0, 0⟩, [], []⟩ := by
  have h := unmatched_observation_frame (fun _ => (none : Option Unit)) (fun _ => 0)
    (fun _ => (none : Option Unit)) (fun _ _ _ => (none : Option Unit))
    (fun _ => false) (fun _ => none) (fun _ => false)
    (fun _ _ => (none : Option Unit))
    ⟨⟨0, 0, 0, 0, 0, 0, 0, 0, 0, 0⟩, [], []⟩
    ⟨RawId.str ("100"), RawId.str ("5"), ()⟩
    (by decide) (by decide) rfl
  simpa using h

/-! ### Claim C10: observations with falsy identifiers -/

/-- C10, confirmed: an observation whose auction_id or lot_id is absent or
null, zero, or the empty string (all Python-falsy) is skipped entirely: the
loop body leaves the whole state — every counter and both batches —
untouched (source lines 242-247). -/
theorem falsy_id_skip {ρ β τ σ υ : Type}
    (db_items_by_link : String → Option β) (item_id : β → Nat)
    (last_snapshots : Nat → Option τ)
    (create_snapshot : β → RawLot ρ → Option τ → Option σ)
    (bidChangedFlag : σ → Bool) (visitIncField : σ → Option Int)
    (statusChangedFlag : σ → Bool)
    (create_full_update : β → RawLot ρ → Option υ)
    (st : ProcState σ υ) (lot : RawLot ρ)
    (h : lot.auction_id ∈ [RawId.none, RawId.str (""), RawId.int 0] ∨
         lot.lot_id ∈ [RawId.none, RawId.str (""), RawId.int 0]) :
    processOne db_items_by_link item_id last_snapshots create_snapshot
      bidChangedFlag visitIncField statusChangedFlag create_full_update st lot = st := by
  have hf : lot.auction_id.truthy = false ∨ lot.lot_id.truthy = false := by
    rcases h with h | h
    · left
      simp only [List.mem_cons, List.not_mem_nil, or_false] at h
      rcases h with h | h | h <;> rw [h] <;> rfl
    · right
      simp only [List.mem_cons, List.not_mem_nil, or_false] at h
      rcases h with h | h | h <;> rw [h] <;> rfl
  simp only [processOne]
  rw [if_pos hf]

/-- C10, witness: the skip theorem applied to a concrete observation whose
auction_id is the integer zero. -/
theorem falsy_id_skip_witness :
    processOne (fun _ => (none : Option Unit)) (fun _ => 0)
      (fun _ => (none : Option Unit)) (fun _ _ _ => (none : Option Unit))
      (fun _ => false) (fun _ => none) (fun _ => false)
      (fun _ _ => (none : Option Unit))
      ⟨⟨0, 0, 0, 0, 0, 0, 0, 0, 0, 0⟩, [], []⟩
      ⟨RawId.int 0, RawId.str ("5"), ()⟩ =
    ⟨⟨0, 0, 0, 0, 0, 0, 0, 0, 0, 0⟩, [], []⟩ :=
  falsy_id_skip (fun _ => (none : Option Unit)) (fun _ => 0)
    (fun _ => (none : Option Unit)) (fun _ _ _ => (none : Option Unit))
    (fun _ => false) (fun _ => none) (fun _ => false)
    (fun _ _ => (none : Option Unit))
    ⟨⟨0, 0, 0, 0, 0, 0, 0, 0, 0, 0⟩, [], []⟩
    ⟨RawId.int 0, RawId.str ("5"), ()⟩
    (Or.inl (by decide))

/-! ### Claim C3: timestamp normalization -/

/-- Facts about the ten digit characters, used to re-parse rendered
datetimes. -/
theorem digitChar_facts : ∀ k : Nat, k < 10 →
    (digitChar k).isDigit = true ∧ digitVal (digitChar k) = k ∧
    digitChar k ≠ 'Z' ∧ digitChar k ≠ 'T' ∧ (digitChar k).isWhitespace = false := by
  decide

/-- take2or1 consumes exactly a two-digit zero-padded field. -/
theorem take2or1_pad2 (n : Nat) (hn : n < 100) (r : List Char) :
    take2or1 (pad2 n ++ r) = some (n, r) := by
  have h1 := digitChar_facts (n / 10 % 10) (Nat.mod_lt _ (by omega))
  have h2 := digitChar_facts (n % 10) (Nat.mod_lt _ (by omega))
  simp [pad2, take2or1, h1.1, h2.1, h1.2.1, h2.2.1]
  omega

/-- take4digits consumes exactly a four-digit zero-padded year. -/
theorem take4digits_pad4 (n : Nat) (hn : n < 10000) (r : List Char) :
    take4digits (pad4 n ++ r) = some (n, r) := by
  have h1 := digitChar_facts (n / 100 / 10 % 10) (Nat.mod_lt _ (by omega))
  have h2 := digitChar_facts (n / 100 % 10) (Nat.mod_lt _ (by omega))
  have h3 := digitChar_facts (n % 100 / 10 % 10) (Nat.mod_lt _ (by omega))
  have h4 := digitChar_facts (n % 100 % 10) (Nat.mod_lt _ (by omega))
  simp [pad4, pad2, take4digits, h1.1, h2.1, h3.1, h4.1,
    h1.2.1, h2.2.1, h3.2.1, h4.2.1]
  omega

/-- containsChar distributes over append. -/
theorem containsChar_append (a : Char) (l1 l2 : List Char) :
    containsChar a (l1 ++ l2) = (containsChar a l1 || containsChar a l2) := by
  induction l1 with
  | nil => simp [containsChar]
  | cons c cs ih => by_cases h : c = a <;> simp [containsChar, h, ih]

/-- replaceZ is the identity on strings without a Z. -/
theorem replaceZ_of_not_contains (l : List Char) (h : containsChar 'Z' l = false) :
    replaceZ l = l := by
  induction l with
  | nil => rfl
  | cons c cs ih =>
    by_cases hc : c = 'Z'
    · simp [containsChar, hc] at h
    · have hcs : containsChar 'Z' cs = false := by simpa [containsChar, hc] using h
      simp [replaceZ, hc, ih hcs]

/-- A two-digit zero-padded field contains no Z. -/
theorem pad2_no_Z (n : Nat) : containsChar 'Z' (pad2 n) = false := by
  have h1 := digitChar_facts (n / 10 % 10) (Nat.mod_lt _ (by omega))
  have h2 := digitChar_facts (n % 10) (Nat.mod_lt _ (by omega))
  simp [pad2, containsChar, h1.2.2.1, h2.2.2.1]

/-- A two-digit zero-padded field contains no T. -/
theorem pad2_no_T (n : Nat) : containsChar 'T' (pad2 n) = false := by
  have h1 := digitChar_facts (n / 10 % 10) (Nat.mod_lt _ (by omega))
  have h2 := digitChar_facts (n % 10) (Nat.mod_lt _ (by omega))
  simp [pad2, containsChar, h1.2.2.2.1, h2.2.2.2.1]

/-- A digit character is never the letter Z. -/
theorem digitChar_mod_ne_Z (k : Nat) : ¬ digitChar (k % 10) = 'Z' :=
  (digitChar_facts (k % 10) (Nat.mod_lt _ (by omega))).2.2.1

/-- A digit character is never the letter T. -/
theorem digitChar_mod_ne_T (k : Nat) : ¬ digitChar (k % 10) = 'T' :=
  (digitChar_facts (k % 10) (Nat.mod_lt _ (by omega))).2.2.2.1

/-- The space-format rendering contains no Z. -/
theorem renderSpace_no_Z (c : DateParts) : containsChar 'Z' (renderSpace c) = false := by
  have hd : ¬ (('-' : Char) = 'Z') := by decide
  have hs : ¬ ((' ' : Char) = 'Z') := by decide
  have hc : ¬ ((':' : Char) = 'Z') := by decide
  simp [renderSpace, pad4, containsChar_append, containsChar, pad2, hd, hs, hc,
    digitChar_mod_ne_Z]

/-- The space-format rendering contains no T. -/
theorem renderSpace_no_T (c : DateParts) : containsChar 'T' (renderSpace c) = false := by
  have hd : ¬ (('-' : Char) = 'T') := by decide
  have hs : ¬ ((' ' : Char) = 'T') := by decide
  have hc : ¬ ((':' : Char) = 'T') := by decide
  simp [renderSpace, pad4, containsChar_append, containsChar, pad2, hd, hs, hc,
    digitChar_mod_ne_T]

/-- Dropping whitespace stops at the first digit of a padded field. -/
theorem dropWhile_ws_pad2 (n : Nat) (r : List Char) :
    (pad2 n ++ r).dropWhile Char.isWhitespace = pad2 n ++ r := by
  have h := (digitChar_facts (n / 10 % 10) (Nat.mod_lt _ (by omega))).2.2.2.2
  simp [pad2, List.dropWhile_cons, h]

/-- Every month has at most 31 days. -/
theorem daysInMonth_le_31 (y mo : Nat) : daysInMonth y mo ≤ 31 := by
  unfold daysInMonth
  split_ifs <;> omega

/-- The strptime model re-parses every calendar-valid rendered datetime. -/
theorem strptime_renderSpace (c : DateParts) (h : ValidParts c) :
    strptimeYmdHMS (renderSpace c) = some c := by
  obtain ⟨hy1, hy2, hmo1, hmo2, hd1, hd2, hh, hmi, hs⟩ := h
  have hd31 : c.d ≤ 31 := le_trans hd2 (daysInMonth_le_31 c.y c.mo)
  have h4 := take4digits_pad4 c.y (by omega)
  have hmoP := take2or1_pad2 c.mo (by omega)
  have hdP := take2or1_pad2 c.d (by omega)
  have hhP := take2or1_pad2 c.h (by omega)
  have hmiP := take2or1_pad2 c.mi (by omega)
  have hsP : take2or1 (pad2 c.s) = some (c.s, []) := by
    simpa using take2or1_pad2 c.s (by omega) []
  have hsp : (' ' : Char).isWhitespace = true := by decide
  simp [renderSpace, strptimeYmdHMS, h4, hmoP, hdP, hhP, hmiP, hsP,
    expectChar, takeWs1, hsp, dropWhile_ws_pad2,
    hy1, hmo1, hmo2, hd1, hd2, hh, hmi, hs]

/-- C3, amended: absent and empty inputs yield null; a space-separated
datetime in the strptime format is converted to the explicit-offset
ISO-8601 rendering with the UTC suffix (the round trip, last conjunct);
a string without a T whose strptime parse fails yields null; BUT any
nonempty string containing a T after the Z replacement — parseable or
not — is returned as-is, so some unparseable strings come back
non-null. -/
theorem parse_datetime_characterization :
    parse_datetime none = none ∧
    parse_datetime (some ("")) = none ∧
    (∀ s : String, ¬ s.data = [] → containsChar 'T' (replaceZ s.data) = true →
      parse_datetime (some s) = some (String.mk (replaceZ s.data))) ∧
    (∀ s : String, containsChar 'T' (replaceZ s.data) = false →
      strptimeYmdHMS (replaceZ s.data) = none → parse_datetime (some s) = none) ∧
    (∀ c : DateParts, ValidParts c →
      parse_datetime (some (String.mk (renderSpace c))) = some (String.mk (fmtOut c))) := by
  refine ⟨rfl, rfl, ?_, ?_, ?_⟩
  · intro s hne hT
    simp [parse_datetime, hne, hT]
  · intro s hT hstrp
    by_cases hne : s.data = []
    · simp [parse_datetime, hne]
    · simp [parse_datetime, hne, hT, hstrp]
  · intro c hc
    have hne : ¬ (String.mk (renderSpace c)).data = [] := by
      show ¬ renderSpace c = []
      simp [renderSpace, pad4, pad2]
    have hz : replaceZ (renderSpace c) = renderSpace c :=
      replaceZ_of_not_contains _ (renderSpace_no_Z c)
    have ht : containsChar 'T' (renderSpace c) = false := renderSpace_no_T c
    simp [parse_datetime, hne, hz, ht, strptime_renderSpace c hc]

/-- C3, counterexample to the claim as stated: the string Thursday is not a
timestamp in any accepted format (it holds no digit at all and the strptime
parse fails), yet _parse_datetime returns it unchanged rather than null,
because it contains the letter T. -/
theorem parse_datetime_thursday_counterexample :
    parse_datetime (some ("Thursday")) = some ("Thursday") ∧
    ("Thursday").data.filter Char.isDigit = [] ∧
    strptimeYmdHMS ("Thursday").data = none := by decide

/-- C3, witness: the characterization applied to a concrete space-separated
datetime and to a concrete Z-suffixed ISO datetime. -/
theorem parse_datetime_characterization_witness :
    parse_datetime (some ("2024-01-02 03:04:05")) = some ("2024-01-02T03:04:05+00:00") ∧
    parse_datetime (some ("2024-01-02T03:04:05Z")) = some ("2024-01-02T03:04:05+00:00") := by
  constructor
  · have h := parse_datetime_characterization.2.2.2.2 ⟨2024, 1, 2, 3, 4, 5⟩ (by decide)
    have e1 : String.mk (renderSpace ⟨2024, 1, 2, 3, 4, 5⟩) = ("2024-01-02 03:04:05") := by
      decide
    have e2 : String.mk (fmtOut ⟨2024, 1, 2, 3, 4, 5⟩) = ("2024-01-02T03:04:05+00:00") := by
      decide
    rw [e1, e2] at h
    exact h
  · have h := parse_datetime_characterization.2.2.1 ("2024-01-02T03:04:05Z")
      (by decide) (by decide)
    have e : String.mk (replaceZ ("2024-01-02T03:04:05Z").data) =
        ("2024-01-02T03:04:05+00:00") := by decide
    rw [e] at h
    exact h

end SodreMonitor
